import Mathlib

/-!
Verification of the resume rendering pipeline of Virtual4087/resume-parser.

The pipeline lives in two places in the source:
  * `app/services/document_service.py`, class `DocumentGenerator`, whose method
    `_generate_document` decodes (if needed), validates the contact block and
    builds the document, with helpers `_add_work_experience`, `_add_education`
    and `_add_hyperlink`;
  * `doc_generator.py`, whose module-level `create_resume_document` is a
    near-duplicate of the class method (its skills loop iterates the mapping
    directly and ignores `skill_order`).

We embed the JSON values the Python code manipulates as `Json`, the produced
document content as `Doc`, and the exceptions the code can raise as `GenErr`:
`decodeError` stands for the `ValueError("Invalid JSON string: ...")` raised on
a failed `json.loads`, `schemaError` for the
`ValueError("Missing or invalid contact information")` schema check failure,
`keyError k` for a Python `KeyError(k)` on a missing dict key, and
`typeError` for the remaining `TypeError` / `AttributeError` style failures
(subscripting a non-dict, iterating a non-iterable, joining non-strings...).
`json.loads` itself is third-party library code; the functions that consume a
string input are therefore parameterized by an abstract decoder
`decode : String -> Option Json`.
-/

/-- A JSON value as produced by `json.loads`: Python dicts keep insertion
order, so objects are association lists. -/
inductive Json where
  | str (s : String)
  | num (n : Int)
  | bool (b : Bool)
  | null
  | arr (xs : List Json)
  | obj (kvs : List (String × Json))

/-- The failures `_generate_document` can raise, by Python exception site. -/
inductive GenErr where
  | decodeError
  | schemaError
  | keyError (key : String)
  | typeError (msg : String)
  deriving DecidableEq

/-- An inline element of a paragraph: a text run or a hyperlink
(`_add_hyperlink` emits a run inside a `w:hyperlink` with the given target). -/
inductive Inline where
  | run (text : String) (bold : Bool)
  | hyperlink (text : String) (url : String) (bold : Bool)
  deriving DecidableEq

/-- The content of one job layout table plus its achievement bullets:
company (top-left), role (bottom-left), location (top-right), sanitized
dates (bottom-right), then one bulleted paragraph per achievement. -/
structure JobBlock where
  company : String
  role : String
  location : String
  dates : String
  bullets : List String
  deriving DecidableEq

/-- The content of the education layout table: institution (top-left),
sanitized degree (bottom-left), location (top-right) and the
"Graduation: ..." line (bottom-right). -/
structure EduBlock where
  institution : String
  degree : String
  location : String
  gradLine : String
  deriving DecidableEq

/-- The document content `_generate_document` produces, in emission order:
name paragraph, contact line, title, summary, the skills table (fixed bold
header plus data rows of (category, skills text)), the job blocks and the
education block. -/
structure Doc where
  name : String
  contactLine : List Inline
  title : String
  summary : String
  skillsHeader : String × String
  skillsRows : List (String × String)
  jobs : List JobBlock
  education : EduBlock
  deriving DecidableEq

/-! ### Models of the Python `str` builtins used by the renderer

These are executable, structurally recursive models of `str.replace`,
`str.strip`, `str.startswith`, `", ".join` and the substring test, so that
every theorem below can be evaluated on concrete inputs by the kernel. -/

/-- Is `p` a prefix of `s` (as character lists)? -/
def listIsPrefix : List Char → List Char → Bool
  | [], _ => true
  | _ :: _, [] => false
  | p :: ps, c :: cs => p == c && listIsPrefix ps cs

/-- One fuel-indexed pass of `str.replace`: replace the leftmost occurrence
of `pat`, continue after the replacement (Python replaces non-overlapping
occurrences left to right).  Each step consumes at least one character, so
fuel equal to the length of the text suffices. -/
def replaceAux (pat rep : List Char) : Nat → List Char → List Char
  | _, [] => []
  | 0, s => s
  | fuel + 1, c :: cs =>
    if listIsPrefix pat (c :: cs) then
      rep ++ replaceAux pat rep fuel (List.drop (pat.length - 1) cs)
    else
      c :: replaceAux pat rep fuel cs

/-- Python `s.replace(pat, rep)` for a non-empty pattern (all patterns in the
source are non-empty; the empty pattern leaves the string unchanged here). -/
def pyReplace (s pat rep : String) : String :=
  if pat.data.isEmpty then s
  else ⟨replaceAux pat.data rep.data s.data.length s.data⟩

/-- The characters Python `str.strip()` removes (ASCII whitespace). -/
def isSpaceChar (c : Char) : Bool :=
  c == ' ' || c == '\t' || c == '\n' || c == '\r'

/-- Python `s.strip()`. -/
def pyStrip (s : String) : String :=
  ⟨(((s.data.dropWhile isSpaceChar).reverse.dropWhile isSpaceChar).reverse)⟩

/-- Python `s.startswith(pre)`. -/
def pyStartsWith (s pre : String) : Bool :=
  listIsPrefix pre.data s.data

/-- Python `sep.join(xs)`. -/
def joinWith (sep : String) : List String → String
  | [] => ""
  | [x] => x
  | x :: y :: rest => x ++ sep ++ joinWith sep (y :: rest)

/-- Does `s` contain `pat` as a substring (Python `pat in s`)? -/
def containsSub (s pat : String) : Bool :=
  go pat.data s.data
where
  /-- Check a match at every suffix. -/
  go (pat : List Char) : List Char → Bool
    | [] => listIsPrefix pat []
    | c :: cs => listIsPrefix pat (c :: cs) || go pat cs

/-- Is this value a Python dict (`isinstance(x, dict)`)? -/
def Json.isObj : Json → Bool
  | .obj _ => true
  | _ => false

/-- Is this value a Python str (`isinstance(x, str)`)? -/
def Json.isStr : Json → Bool
  | .str _ => true
  | _ => false

/-- Substring test, used for Python `k in s` membership on strings. -/
def strContains (s pat : String) : Bool :=
  containsSub s pat

/-- Python `k in x` for a string key: key membership on dicts, element
membership on lists, substring test on strings, `TypeError` otherwise. -/
def pyContains (x : Json) (k : String) : Except GenErr Bool :=
  match x with
  | .obj kvs => .ok (kvs.lookup k).isSome
  | .arr xs => .ok (xs.any fun e => match e with | .str s => s == k | _ => false)
  | .str s => .ok (strContains s k)
  | _ => .error (.typeError "argument is not iterable")

/-- Python `x[k]` for a string key: dict lookup raising `KeyError` when the
key is absent, `TypeError` on any non-dict. -/
def Json.getItem (x : Json) (k : String) : Except GenErr Json :=
  match x with
  | .obj kvs =>
    match kvs.lookup k with
    | some v => .ok v
    | none => .error (.keyError k)
  | _ => .error (.typeError "value is not subscriptable by a string")

/-- Python `x.get(k, dflt)`; only ever reached on a dict in the source. -/
def Json.dictGet (x : Json) (k : String) (dflt : Json) : Json :=
  match x with
  | .obj kvs => ((kvs.lookup k).getD dflt)
  | _ => dflt

/-- Use a value where the code needs a `str` (e.g. calls `.strip()` on it or
joins it); non-strings raise an `AttributeError`/`TypeError`, folded into
`typeError`. -/
def Json.asStr (x : Json) : Except GenErr String :=
  match x with
  | .str s => .ok s
  | _ => .error (.typeError "expected a str")

/-- Python iteration `for e in x`: lists yield elements, strings yield
one-character strings, dicts yield their keys, the rest raise `TypeError`. -/
def pyIter (x : Json) : Except GenErr (List Json) :=
  match x with
  | .arr xs => .ok xs
  | .str s => .ok (s.data.map fun c => .str (String.mk [c]))
  | .obj kvs => .ok (kvs.map fun kv => .str kv.1)
  | _ => .error (.typeError "value is not iterable")

/-- Python `e in d` for a dict `d` with string keys, reduced to the key that
`e` can match: a string matches itself, hashable scalars match no string key,
lists/dicts are unhashable and raise `TypeError`. -/
def keyOf (e : Json) : Except GenErr (Option String) :=
  match e with
  | .str s => .ok (some s)
  | .num _ => .ok none
  | .bool _ => .ok none
  | .null => .ok none
  | .arr _ => .error (.typeError "unhashable type")
  | .obj _ => .error (.typeError "unhashable type")

/-- Model of `", ".join(xs)` over the list of values, requiring every element to be a
str as the Python `str.join` does. -/
def joinStrs : List Json → Except GenErr (List String)
  | [] => .ok []
  | x :: rest => do
    let s ← x.asStr
    let tail ← joinStrs rest
    pure (s :: tail)

/-- The text put in the right cell of a skills row:
`", ".join(skills) if isinstance(skills, list) else skills`; assigning a
non-str to `cell.text` raises `TypeError`. -/
def cellVal (skills : Json) : Except GenErr String :=
  match skills with
  | .str s => .ok s
  | .arr xs => do
    let strs ← joinStrs xs
    pure (joinWith ", " strs)
  | _ => .error (.typeError "cell text must be a str")

/-- The skills-table loop of `DocumentGenerator._generate_document`
(document_service.py lines 194-208): for each element of `skill_order`, if it
is a key of the mapping, emit a row `(category, cellVal value)`. -/
def buildRows (kvs : List (String × Json)) : List Json → Except GenErr (List (String × String))
  | [] => .ok []
  | e :: rest => do
    let k? ← keyOf e
    match k? with
    | some k =>
      (match kvs.lookup k with
       | some v => do
         let txt ← cellVal v
         let tail ← buildRows kvs rest
         pure ((k, txt) :: tail)
       | none => buildRows kvs rest)
    | none => buildRows kvs rest

/-- The skills-table loop of the module-level `create_resume_document`
(doc_generator.py lines 450-462): iterate the items of the mapping directly. -/
def buildRowsM : List (String × Json) → Except GenErr (List (String × String))
  | [] => .ok []
  | kv :: rest => do
    let txt ← cellVal kv.2
    let tail ← buildRowsM rest
    pure ((kv.1, txt) :: tail)

/-- The date cleanup of `_add_work_experience` (document_service.py line 282):
replace the characters `â`, `–`, `—` by a hyphen, then each double space by one space. -/
def sanitizeDates (s : String) : String :=
  pyReplace (pyReplace (pyReplace (pyReplace s "â" "-") "–" "-") "—" "-") "  " " "

/-- The degree cleanup of `_add_education` (document_service.py line 321):
three identical replacements of the mis-decoded byte `â` by an
apostrophe (the first two source literals are that same character). -/
def sanitizeDegree (s : String) : String :=
  pyReplace (pyReplace (pyReplace s "â" "\x27") "â" "\x27") "â" "\x27"

/-- The graduation-year cleanup of `_add_education` (line 339):
replace the character `â` by a hyphen, then each double space by one space. -/
def sanitizeGrad (s : String) : String :=
  pyReplace (pyReplace s "â" "-") "  " " "

/-- The achievement cleanup of `_generate_document` (line 221):
`achievement.replace("●", "").strip()`. -/
def sanitizeAchievement (s : String) : String :=
  pyStrip (pyReplace s "●" "")

/-- The bold flags of the plain runs of a paragraph, in order; hyperlink runs
are nested under `w:hyperlink` and do not appear in `paragraph.runs`. -/
def runBolds : List Inline → List Bool
  | [] => []
  | .run _ b :: rest => b :: runBolds rest
  | .hyperlink _ _ _ :: rest => runBolds rest

/-- The last element of a list of bold flags, `false` for the empty list. -/
def lastB : List Bool → Bool
  | [] => false
  | [b] => b
  | _ :: b :: rest => lastB (b :: rest)

/-- The test `paragraph.runs and paragraph.runs[-1].bold` in `_add_hyperlink`
(line 374): falsy when the paragraph has no plain runs yet. -/
def lastRunBold (xs : List Inline) : Bool :=
  lastB (runBolds xs)

/-- The guarded skills block of `_generate_document` (lines 188-208): when
`technical_skills` is a dict, iterate `skill_order` (or the default key
order) through `buildRows`; otherwise emit no data rows. -/
def skillsRowsBlock (resume_data tech : Json) : Except GenErr (List (String × String)) :=
  match tech with
  | .obj kvs => do
    let orderJ := resume_data.dictGet "skill_order"
      (.arr ((kvs.map Prod.fst).map Json.str))
    let elems ← pyIter orderJ
    buildRows kvs elems
  | _ => pure []

/-- The guarded skills block of the module-level `create_resume_document`
(lines 447-462): iterate the items of the mapping directly. -/
def skillsRowsBlockM (tech : Json) : Except GenErr (List (String × String)) :=
  match tech with
  | .obj kvs => buildRowsM kvs
  | _ => pure []

/-- Translation of `_add_work_experience` plus the achievements loop that follows it in
`_generate_document`: field access order is company, role, location, dates,
then the achievements. -/
def add_work_experience (job : Json) : Except GenErr JobBlock := do
  let company ← (← job.getItem "company").asStr
  let role ← (← job.getItem "role").asStr
  let location ← (← job.getItem "location").asStr
  let dates0 ← (← job.getItem "dates").asStr
  let dates := sanitizeDates dates0
  let achJ ← job.getItem "achievements"
  let achs ← pyIter achJ
  let bullets ← achievementTexts achs
  pure { company := company, role := role, location := location,
         dates := dates, bullets := bullets }
where
  /-- One bulleted paragraph per achievement, cleaned up. -/
  achievementTexts : List Json → Except GenErr (List String)
    | [] => .ok []
    | a :: rest => do
      let s ← a.asStr
      let tail ← achievementTexts rest
      pure (sanitizeAchievement s :: tail)

/-- Translation of `_add_education`: field access order is institution, degree, location,
graduation year. -/
def add_education (education : Json) : Except GenErr EduBlock := do
  let institution ← (← education.getItem "institution").asStr
  let degree0 ← (← education.getItem "degree").asStr
  let degree := sanitizeDegree degree0
  let location ← (← education.getItem "location").asStr
  let grad0 ← (← education.getItem "graduation_year").asStr
  pure { institution := institution, degree := degree, location := location,
         gradLine := "Graduation: " ++ sanitizeGrad grad0 }

/-- The job loop of `_generate_document` (lines 216-222). -/
def workExperienceBlocks : List Json → Except GenErr (List JobBlock)
  | [] => .ok []
  | j :: rest => do
    let b ← add_work_experience j
    let tail ← workExperienceBlocks rest
    pure (b :: tail)

/-- Everything `DocumentGenerator._generate_document` does after the contact
schema check (document_service.py lines 90-229), in source order. -/
def generate_afterContactCheck (resume_data : Json) : Except GenErr Doc := do
  let contact ← resume_data.getItem "contact"
  let name ← (← contact.getItem "name").asStr
  let email0 ← (← contact.getItem "email").asStr
  let email := pyStrip email0
  let phone0 ← (← contact.getItem "phone").asStr
  let phone := pyStrip phone0
  let linkedin0 ← (← contact.getItem "linkedin").asStr
  let linkedinText := pyStrip linkedin0
  let linkedinUrl :=
    if pyStartsWith linkedinText "http" then linkedinText
    else "https://" ++ linkedinText
  let l0 : List Inline := []
  let l1 := l0 ++ [Inline.hyperlink email ("mailto:" ++ email) (lastRunBold l0)]
  let l2 := l1 ++ [Inline.run " || " true]
  let l3 := l2 ++ [Inline.run phone true]
  let l4 := l3 ++ [Inline.run " || " true]
  let l5 := l4 ++ [Inline.hyperlink linkedinText linkedinUrl (lastRunBold l4)]
  let title ← (← resume_data.getItem "title").asStr
  let summary ← (← resume_data.getItem "summary").asStr
  let tech ← resume_data.getItem "technical_skills"
  let rows ← skillsRowsBlock resume_data tech
  let weJ ← resume_data.getItem "work_experience"
  let jobsJ ← pyIter weJ
  let jobs ← workExperienceBlocks jobsJ
  let eduJ ← resume_data.getItem "education"
  let edu ← add_education eduJ
  pure { name := name, contactLine := l5, title := title, summary := summary,
         skillsHeader := ("Category", "Skills/Tools"), skillsRows := rows,
         jobs := jobs, education := edu }

/-- The body of `DocumentGenerator._generate_document` once a string input
has been decoded: the contact schema check of lines 87-88 (with the Python
short-circuit `or`), then the document construction. -/
def generateCore (resume_data : Json) : Except GenErr Doc := do
  let mem ← pyContains resume_data "contact"
  let contactOk ←
    if mem then do
      let c ← resume_data.getItem "contact"
      pure c.isObj
    else pure false
  if contactOk then generate_afterContactCheck resume_data
  else Except.error GenErr.schemaError

/-- The method `DocumentGenerator._generate_document` in full: a `str` argument is first
decoded by `json.loads` (abstracted as `decode`), anything else is used
directly. -/
def generate_document (decode : String → Option Json) (resume_data : Json) :
    Except GenErr Doc :=
  match resume_data with
  | .str s =>
    match decode s with
    | none => .error .decodeError
    | some v => generateCore v
  | j => generateCore j

/-- Everything the module-level `create_resume_document` (doc_generator.py
lines 349-482) does after the contact check.  It is a line-for-line duplicate
of the class method except for the skills loop, which iterates the
items and never consults `skill_order`. -/
def create_afterContactCheck (resume_data : Json) : Except GenErr Doc := do
  let contact ← resume_data.getItem "contact"
  let name ← (← contact.getItem "name").asStr
  let email0 ← (← contact.getItem "email").asStr
  let email := pyStrip email0
  let phone0 ← (← contact.getItem "phone").asStr
  let phone := pyStrip phone0
  let linkedin0 ← (← contact.getItem "linkedin").asStr
  let linkedinText := pyStrip linkedin0
  let linkedinUrl :=
    if pyStartsWith linkedinText "http" then linkedinText
    else "https://" ++ linkedinText
  let l0 : List Inline := []
  let l1 := l0 ++ [Inline.hyperlink email ("mailto:" ++ email) (lastRunBold l0)]
  let l2 := l1 ++ [Inline.run " || " true]
  let l3 := l2 ++ [Inline.run phone true]
  let l4 := l3 ++ [Inline.run " || " true]
  let l5 := l4 ++ [Inline.hyperlink linkedinText linkedinUrl (lastRunBold l4)]
  let title ← (← resume_data.getItem "title").asStr
  let summary ← (← resume_data.getItem "summary").asStr
  let tech ← resume_data.getItem "technical_skills"
  let rows ← skillsRowsBlockM tech
  let weJ ← resume_data.getItem "work_experience"
  let jobsJ ← pyIter weJ
  let jobs ← workExperienceBlocks jobsJ
  let eduJ ← resume_data.getItem "education"
  let edu ← add_education eduJ
  pure { name := name, contactLine := l5, title := title, summary := summary,
         skillsHeader := ("Category", "Skills/Tools"), skillsRows := rows,
         jobs := jobs, education := edu }

/-- The module-level `create_resume_document` body after decoding. -/
def createCore (resume_data : Json) : Except GenErr Doc := do
  let mem ← pyContains resume_data "contact"
  let contactOk ←
    if mem then do
      let c ← resume_data.getItem "contact"
      pure c.isObj
    else pure false
  if contactOk then create_afterContactCheck resume_data
  else Except.error GenErr.schemaError

/-- The module-level `create_resume_document` (content part; the final
`doc.save(filename)` serializes this content unchanged). -/
def create_resume_document (decode : String → Option Json) (resume_data : Json) :
    Except GenErr Doc :=
  match resume_data with
  | .str s =>
    match decode s with
    | none => .error .decodeError
    | some v => createCore v
  | j => createCore j

/-! ## Structured resumes

A family of well-formed inputs: every field the template requires is present
with a string value, `technical_skills` is kept as a raw `Json` value (the
code tolerates non-mapping values there) and `skill_order` is an optional
list of category names.  `Resume.toJson` embeds such a value as the Python
dict `_generate_document` receives. -/

/-- The contact block: name, email, phone, linkedin, all strings. -/
structure Contact where
  name : String
  email : String
  phone : String
  linkedin : String

/-- One job record. -/
structure Job where
  company : String
  role : String
  location : String
  dates : String
  achievements : List String

/-- The education record. -/
structure Education where
  institution : String
  degree : String
  location : String
  graduationYear : String

/-- A structured resume input. -/
structure Resume where
  contact : Contact
  title : String
  summary : String
  technicalSkills : Json
  skillOrder : Option (List String)
  workExperience : List Job
  education : Education

/-- The contact block as a JSON object. -/
def Contact.toJson (c : Contact) : Json :=
  .obj [("name", .str c.name), ("email", .str c.email),
        ("phone", .str c.phone), ("linkedin", .str c.linkedin)]

/-- A job as a JSON object. -/
def Job.toJson (j : Job) : Json :=
  .obj [("company", .str j.company), ("role", .str j.role),
        ("location", .str j.location), ("dates", .str j.dates),
        ("achievements", .arr (j.achievements.map Json.str))]

/-- The education record as a JSON object. -/
def Education.toJson (e : Education) : Json :=
  .obj [("institution", .str e.institution), ("degree", .str e.degree),
        ("location", .str e.location), ("graduation_year", .str e.graduationYear)]

/-- The resume as the JSON object handed to the renderer; `skill_order` is
present exactly when `skillOrder` is `some`. -/
def Resume.toJson (r : Resume) : Json :=
  .obj ([("contact", r.contact.toJson), ("title", .str r.title),
         ("summary", .str r.summary),
         ("technical_skills", r.technicalSkills),
         ("work_experience", .arr (r.workExperience.map Job.toJson)),
         ("education", r.education.toJson)] ++
        (match r.skillOrder with
         | some o => [("skill_order", Json.arr (o.map Json.str))]
         | none => []))

/-- The category order the class renderer iterates: `skill_order` when
present, the own key order of the mapping otherwise (empty for
non-mappings, where the loop is skipped). -/
def skillOrderOf (r : Resume) : List String :=
  match r.skillOrder with
  | some o => o
  | none =>
    match r.technicalSkills with
    | .obj kvs => kvs.map Prod.fst
    | _ => []

/-- The string content of a value known to be a string. -/
def strOrEmpty : Json → String
  | .str s => s
  | _ => ""

/-- Total form of `cellVal`, meaningful on values accepted by `skillValOk`. -/
def cellText : Json → String
  | .str s => s
  | .arr xs => joinWith ", " (xs.map strOrEmpty)
  | _ => ""

/-- Does `cellVal` succeed on this skills value? -/
def skillValOk : Json → Bool
  | .str _ => true
  | .arr xs => xs.all Json.isStr
  | _ => false

/-- Every skills value the class renderer loop touches (categories of
`skillOrderOf` that are keys of the mapping) renders without a type error. -/
def skillsOkB (r : Resume) : Bool :=
  match r.technicalSkills with
  | .obj kvs =>
    (skillOrderOf r).all fun c =>
      match kvs.lookup c with
      | some v => skillValOk v
      | none => true
  | _ => true

/-- Every value of the skills mapping renders without a type error (what the
module-level loop, which visits all items, needs). -/
def allSkillValsOkB (r : Resume) : Bool :=
  match r.technicalSkills with
  | .obj kvs => kvs.all fun kv => skillValOk kv.2
  | _ => true

/-- Closed form of the skills rows the class renderer emits. -/
def skillsRowsOf (r : Resume) : List (String × String) :=
  match r.technicalSkills with
  | .obj kvs =>
    (skillOrderOf r).filterMap fun c => (kvs.lookup c).map fun v => (c, cellText v)
  | _ => []

/-- Closed form of the skills rows the module-level renderer emits. -/
def skillsRowsOfM (r : Resume) : List (String × String) :=
  match r.technicalSkills with
  | .obj kvs => kvs.map fun kv => (kv.1, cellText kv.2)
  | _ => []

/-- Closed form of the contact line: email hyperlink (not bold: the paragraph
has no plain run yet), two bold " || " separators, bold phone, and the
LinkedIn hyperlink (bold: the preceding run is bold). -/
def contactLineOf (c : Contact) : List Inline :=
  [.hyperlink (pyStrip c.email) ("mailto:" ++ pyStrip c.email) false,
   .run " || " true, .run (pyStrip c.phone) true, .run " || " true,
   .hyperlink (pyStrip c.linkedin)
     (if pyStartsWith (pyStrip c.linkedin) "http" then pyStrip c.linkedin
      else "https://" ++ pyStrip c.linkedin) true]

/-- Closed form of a job block. -/
def jobBlockOf (j : Job) : JobBlock :=
  { company := j.company, role := j.role, location := j.location,
    dates := sanitizeDates j.dates,
    bullets := j.achievements.map sanitizeAchievement }

/-- Closed form of the education block. -/
def eduBlockOf (e : Education) : EduBlock :=
  { institution := e.institution, degree := sanitizeDegree e.degree,
    location := e.location,
    gradLine := "Graduation: " ++ sanitizeGrad e.graduationYear }

/-- Closed form of the document the class renderer produces on a structured
resume. -/
def docOf (r : Resume) : Doc :=
  { name := r.contact.name, contactLine := contactLineOf r.contact,
    title := r.title, summary := r.summary,
    skillsHeader := ("Category", "Skills/Tools"),
    skillsRows := skillsRowsOf r,
    jobs := r.workExperience.map jobBlockOf,
    education := eduBlockOf r.education }

/-- Closed form of the document the module-level renderer produces. -/
def docOfM (r : Resume) : Doc :=
  { name := r.contact.name, contactLine := contactLineOf r.contact,
    title := r.title, summary := r.summary,
    skillsHeader := ("Category", "Skills/Tools"),
    skillsRows := skillsRowsOfM r,
    jobs := r.workExperience.map jobBlockOf,
    education := eduBlockOf r.education }

/-- Replace the `technical_skills` value of a resume. -/
def Resume.setTech (r : Resume) (t : Json) : Resume :=
  { r with technicalSkills := t }

/-! ## Concrete inputs used by witnesses and counterexamples -/

/-- A baseline well-formed job record. -/
def baseJob : Job :=
  { company := "Acme", role := "Dev", location := "NYC",
    dates := "2019 - 2021", achievements := ["Did X"] }

/-- A baseline well-formed education record. -/
def baseEducation : Education :=
  { institution := "MIT", degree := "BSc", location := "MA",
    graduationYear := "2019" }

/-- A baseline well-formed structured resume. -/
def baseResume : Resume :=
  { contact := { name := "Alice Smith", email := "alice@example.com",
                 phone := "555-0100", linkedin := "linkedin.com/in/asisub" },
    title := "Engineer", summary := "Builds things.",
    technicalSkills := .obj [("Languages", .str "Python")],
    skillOrder := none,
    workExperience := [baseJob],
    education := baseEducation }

/-- Skills mapping with keys A, C but `skill_order` ["B", "A"]: B is skipped
(not a key), C is dropped (not in the order). -/
def cex1 : Resume :=
  { baseResume with
    technicalSkills := .obj [("A", .str "x"), ("C", .str "y")],
    skillOrder := some ["B", "A"] }

/-- A LinkedIn identifier stored with a leading space. -/
def cex2 : Resume :=
  { baseResume with
    contact := { baseResume.contact with linkedin := " linkedin.com/in/asisub" } }

/-- Two-category mapping rendered against the reversed `skill_order`. -/
def cex4 : Resume :=
  { baseResume with
    technicalSkills := .obj [("A", .str "x"), ("B", .str "y")],
    skillOrder := some ["B", "A"] }

/-- A dates field carrying an en-dash. -/
def res5 : Resume :=
  { baseResume with workExperience := [{ baseJob with dates := "Jan 2020 – Present" }] }

/-- A degree field carrying an en-dash and a double space; the degree cleanup
touches neither. -/
def cex6 : Resume :=
  { baseResume with education := { baseEducation with degree := "BSc –  CS" } }

/-- A degree field carrying the mis-decoded apostrophe byte. -/
def res6 : Resume :=
  { baseResume with education := { baseEducation with degree := "Bachelorâs" } }

/-- An achievement with an interior (non-leading) bullet glyph. -/
def cex7 : Resume :=
  { baseResume with workExperience := [{ baseJob with achievements := ["Led ● team"] }] }

/-- An achievement with a leading bullet glyph. -/
def res7 : Resume :=
  { baseResume with workExperience := [{ baseJob with achievements := ["● Led team of 5"] }] }

/-- A resume whose `technical_skills` is present but is a plain string. -/
def res10 : Resume :=
  { baseResume with technicalSkills := .str "Python, SQL" }

/-! ## Evaluation lemmas

Closed-form evaluation of each loop of the renderer on well-formed inputs,
leading to `generateCore_toJson` / `createCore_toJson`: on a structured
resume whose touched skills values render, each renderer succeeds and
produces its closed-form document. -/

theorem joinStrs_map_str (l : List String) : joinStrs (l.map Json.str) = .ok l := by
  induction l with
  | nil => rfl
  | cons x rest ih => simp [joinStrs, Json.asStr, ih, bind, Except.bind, pure, Except.pure]

theorem map_strOrEmpty (l : List String) :
    List.map strOrEmpty (List.map Json.str l) = l := by
  induction l with
  | nil => rfl
  | cons x rest ih => simp [strOrEmpty, ih]

theorem cellVal_ok (v : Json) (h : skillValOk v = true) : cellVal v = .ok (cellText v) := by
  cases v with
  | str s => rfl
  | arr xs =>
    have : ∃ l : List String, xs = l.map Json.str := by
      induction xs with
      | nil => exact ⟨[], rfl⟩
      | cons x rest ih =>
        simp [skillValOk, List.all_cons] at h
        obtain ⟨hx, hrest⟩ := h
        obtain ⟨l, hl⟩ := ih (by simpa [skillValOk] using hrest)
        cases x with
        | str s => exact ⟨s :: l, by simp [hl]⟩
        | _ => simp [Json.isStr] at hx
    obtain ⟨l, rfl⟩ := this
    rw [cellVal, joinStrs_map_str]
    show Except.ok (joinWith ", " l) = _
    rw [cellText, map_strOrEmpty]
  | num n => simp [skillValOk] at h
  | bool b => simp [skillValOk] at h
  | null => simp [skillValOk] at h
  | obj kvs => simp [skillValOk] at h

theorem buildRows_eval (kvs : List (String × Json)) (order : List String)
    (hok : ∀ c ∈ order, ∀ v, kvs.lookup c = some v → skillValOk v = true) :
    buildRows kvs (order.map Json.str) =
      .ok (order.filterMap fun c => (kvs.lookup c).map fun v => (c, cellText v)) := by
  induction order with
  | nil => rfl
  | cons c rest ih =>
    have hrest : ∀ c ∈ rest, ∀ v, kvs.lookup c = some v → skillValOk v = true :=
      fun c hc v hv => hok c (List.mem_cons_of_mem _ hc) v hv
    cases hcv : kvs.lookup c with
    | none =>
      simp [buildRows, keyOf, bind, Except.bind, hcv, ih hrest]
    | some v =>
      have hv := hok c (List.mem_cons_self c rest) v hcv
      simp [buildRows, keyOf, bind, Except.bind, hcv, cellVal_ok v hv, ih hrest,
        pure, Except.pure]

theorem buildRowsM_eval (kvs : List (String × Json))
    (hok : ∀ kv ∈ kvs, skillValOk kv.2 = true) :
    buildRowsM kvs = .ok (kvs.map fun kv => (kv.1, cellText kv.2)) := by
  induction kvs with
  | nil => rfl
  | cons kv rest ih =>
    have hv := hok kv (List.mem_cons_self kv rest)
    have hrest : ∀ kv ∈ rest, skillValOk kv.2 = true :=
      fun kv hkv => hok kv (List.mem_cons_of_mem _ hkv)
    simp [buildRowsM, cellVal_ok kv.2 hv, ih hrest, bind, Except.bind, pure, Except.pure]

theorem achievementTexts_eval (l : List String) :
    add_work_experience.achievementTexts (l.map Json.str) = .ok (l.map sanitizeAchievement) := by
  induction l with
  | nil => rfl
  | cons x rest ih =>
    simp [add_work_experience.achievementTexts, Json.asStr, ih, bind, Except.bind,
      pure, Except.pure]

theorem add_work_experience_eval (j : Job) :
    add_work_experience j.toJson = .ok (jobBlockOf j) := by
  simp [add_work_experience, Job.toJson, Json.getItem, Json.asStr, pyIter,
    achievementTexts_eval, jobBlockOf, bind, Except.bind, pure, Except.pure,
    List.lookup]

theorem workExperienceBlocks_eval (jobs : List Job) :
    workExperienceBlocks (jobs.map Job.toJson) = .ok (jobs.map jobBlockOf) := by
  induction jobs with
  | nil => rfl
  | cons j rest ih =>
    simp [workExperienceBlocks, add_work_experience_eval, ih, bind, Except.bind,
      pure, Except.pure]

theorem add_education_eval (e : Education) :
    add_education e.toJson = .ok (eduBlockOf e) := rfl

theorem skillsOk_forall (r : Resume) (kvs : List (String × Json))
    (ht : r.technicalSkills = .obj kvs) (hok : skillsOkB r = true) :
    ∀ c ∈ skillOrderOf r, ∀ v, kvs.lookup c = some v → skillValOk v = true := by
  intro c hc v hv
  rw [skillsOkB, ht] at hok
  have h := (List.all_eq_true.mp hok) c hc
  rw [hv] at h
  exact h

theorem skillsRowsBlock_eval (r : Resume) (hok : skillsOkB r = true) :
    skillsRowsBlock r.toJson r.technicalSkills = .ok (skillsRowsOf r) := by
  cases ht : r.technicalSkills with
  | obj kvs =>
    have h' := skillsOk_forall r kvs ht hok
    cases hso : r.skillOrder with
    | none =>
      have hord : skillOrderOf r = kvs.map Prod.fst := by simp [skillOrderOf, hso, ht]
      rw [hord] at h'
      have hrows := buildRows_eval kvs (kvs.map Prod.fst) h'
      simp only [List.map_map] at hrows
      simp [skillsRowsBlock, Resume.toJson, Json.dictGet, hso, pyIter, bind, Except.bind,
        List.lookup, hrows, skillsRowsOf, ht, hord]
    | some o =>
      have hord : skillOrderOf r = o := by simp [skillOrderOf, hso]
      rw [hord] at h'
      have hrows := buildRows_eval kvs o h'
      simp [skillsRowsBlock, Resume.toJson, Json.dictGet, hso, pyIter, bind, Except.bind,
        List.lookup, hrows, skillsRowsOf, ht, hord]
  | str s => simp [skillsRowsBlock, skillsRowsOf, ht, pure, Except.pure]
  | num n => simp [skillsRowsBlock, skillsRowsOf, ht, pure, Except.pure]
  | bool b => simp [skillsRowsBlock, skillsRowsOf, ht, pure, Except.pure]
  | null => simp [skillsRowsBlock, skillsRowsOf, ht, pure, Except.pure]
  | arr xs => simp [skillsRowsBlock, skillsRowsOf, ht, pure, Except.pure]

theorem skillsRowsBlockM_eval (r : Resume) (hok : allSkillValsOkB r = true) :
    skillsRowsBlockM r.technicalSkills = .ok (skillsRowsOfM r) := by
  cases ht : r.technicalSkills with
  | obj kvs =>
    have h' : ∀ kv ∈ kvs, skillValOk kv.2 = true := by
      rw [allSkillValsOkB, ht] at hok
      intro kv hkv
      exact List.all_eq_true.mp hok kv hkv
    have hrows := buildRowsM_eval kvs h'
    simp [skillsRowsBlockM, hrows, skillsRowsOfM, ht]
  | str s => simp [skillsRowsBlockM, skillsRowsOfM, ht, pure, Except.pure]
  | num n => simp [skillsRowsBlockM, skillsRowsOfM, ht, pure, Except.pure]
  | bool b => simp [skillsRowsBlockM, skillsRowsOfM, ht, pure, Except.pure]
  | null => simp [skillsRowsBlockM, skillsRowsOfM, ht, pure, Except.pure]
  | arr xs => simp [skillsRowsBlockM, skillsRowsOfM, ht, pure, Except.pure]

theorem generateCore_toJson (r : Resume) (hok : skillsOkB r = true) :
    generateCore r.toJson = .ok (docOf r) := by
  have key : generateCore r.toJson =
      Except.bind (skillsRowsBlock r.toJson r.technicalSkills)
        (fun rows => Except.bind (workExperienceBlocks (r.workExperience.map Job.toJson))
          (fun jobs => Except.ok
            { name := r.contact.name, contactLine := contactLineOf r.contact,
              title := r.title, summary := r.summary,
              skillsHeader := ("Category", "Skills/Tools"), skillsRows := rows,
              jobs := jobs, education := eduBlockOf r.education })) := rfl
  rw [key, skillsRowsBlock_eval r hok]
  show Except.bind (workExperienceBlocks (r.workExperience.map Job.toJson)) _ = _
  rw [workExperienceBlocks_eval r.workExperience]
  rfl

theorem createCore_toJson (r : Resume) (hok : allSkillValsOkB r = true) :
    createCore r.toJson = .ok (docOfM r) := by
  have key : createCore r.toJson =
      Except.bind (skillsRowsBlockM r.technicalSkills)
        (fun rows => Except.bind (workExperienceBlocks (r.workExperience.map Job.toJson))
          (fun jobs => Except.ok
            { name := r.contact.name, contactLine := contactLineOf r.contact,
              title := r.title, summary := r.summary,
              skillsHeader := ("Category", "Skills/Tools"), skillsRows := rows,
              jobs := jobs, education := eduBlockOf r.education })) := rfl
  rw [key, skillsRowsBlockM_eval r hok]
  show Except.bind (workExperienceBlocks (r.workExperience.map Job.toJson)) _ = _
  rw [workExperienceBlocks_eval r.workExperience]
  rfl

/-! ## The schema error is raised only by the contact check

Every function running after the contact check returns either a document or
a `keyError`/`typeError`, never the `schemaError`; this gives the "only if"
direction of the schema-failure characterization. -/

theorem bind_ne_schema {α β : Type} (x : Except GenErr α) (f : α → Except GenErr β)
    (hx : x ≠ Except.error GenErr.schemaError)
    (hf : ∀ a, f a ≠ Except.error GenErr.schemaError) :
    (x >>= f) ≠ Except.error GenErr.schemaError := by
  cases x with
  | error e => simpa [Bind.bind, Except.bind] using hx
  | ok a => simpa [Bind.bind, Except.bind] using hf a

theorem getItem_ne_schema (x : Json) (k : String) :
    x.getItem k ≠ Except.error GenErr.schemaError := by
  cases x with
  | obj kvs => cases h : kvs.lookup k <;> simp [Json.getItem, h]
  | str s => simp [Json.getItem]
  | num n => simp [Json.getItem]
  | bool b => simp [Json.getItem]
  | null => simp [Json.getItem]
  | arr xs => simp [Json.getItem]

theorem asStr_ne_schema (x : Json) : x.asStr ≠ Except.error GenErr.schemaError := by
  cases x <;> simp [Json.asStr]

theorem pyIter_ne_schema (x : Json) : pyIter x ≠ Except.error GenErr.schemaError := by
  cases x <;> simp [pyIter]

theorem keyOf_ne_schema (x : Json) : keyOf x ≠ Except.error GenErr.schemaError := by
  cases x <;> simp [keyOf]

theorem joinStrs_ne_schema (xs : List Json) :
    joinStrs xs ≠ Except.error GenErr.schemaError := by
  induction xs with
  | nil => simp [joinStrs]
  | cons x rest ih =>
    simp only [joinStrs]
    exact bind_ne_schema _ _ (asStr_ne_schema x) fun s =>
      bind_ne_schema _ _ ih fun tail => by simp [pure, Except.pure]

theorem cellVal_ne_schema (v : Json) : cellVal v ≠ Except.error GenErr.schemaError := by
  cases v with
  | arr xs =>
    simp only [cellVal]
    exact bind_ne_schema _ _ (joinStrs_ne_schema xs) fun strs => by simp [pure, Except.pure]
  | _ => simp [cellVal]

theorem buildRows_ne_schema (kvs : List (String × Json)) (elems : List Json) :
    buildRows kvs elems ≠ Except.error GenErr.schemaError := by
  induction elems with
  | nil => simp [buildRows]
  | cons e rest ih =>
    simp only [buildRows]
    refine bind_ne_schema _ _ (keyOf_ne_schema e) fun k? => ?_
    split
    · split
      · exact bind_ne_schema _ _ (cellVal_ne_schema _) fun txt =>
          bind_ne_schema _ _ ih fun tail => by simp [pure, Except.pure]
      · exact ih
    · exact ih

theorem buildRowsM_ne_schema (kvs : List (String × Json)) :
    buildRowsM kvs ≠ Except.error GenErr.schemaError := by
  induction kvs with
  | nil => simp [buildRowsM]
  | cons kv rest ih =>
    simp only [buildRowsM]
    exact bind_ne_schema _ _ (cellVal_ne_schema kv.2) fun txt =>
      bind_ne_schema _ _ ih fun tail => by simp [pure, Except.pure]

theorem skillsRowsBlock_ne_schema (rd tech : Json) :
    skillsRowsBlock rd tech ≠ Except.error GenErr.schemaError := by
  cases tech with
  | obj kvs =>
    simp only [skillsRowsBlock]
    exact bind_ne_schema _ _ (pyIter_ne_schema _) fun elems => buildRows_ne_schema kvs elems
  | _ => simp [skillsRowsBlock, pure, Except.pure]

theorem skillsRowsBlockM_ne_schema (tech : Json) :
    skillsRowsBlockM tech ≠ Except.error GenErr.schemaError := by
  cases tech with
  | obj kvs => exact buildRowsM_ne_schema kvs
  | _ => simp [skillsRowsBlockM, pure, Except.pure]

theorem achievementTexts_ne_schema (xs : List Json) :
    add_work_experience.achievementTexts xs ≠ Except.error GenErr.schemaError := by
  induction xs with
  | nil => simp [add_work_experience.achievementTexts]
  | cons a rest ih =>
    simp only [add_work_experience.achievementTexts]
    exact bind_ne_schema _ _ (asStr_ne_schema a) fun s =>
      bind_ne_schema _ _ ih fun tail => by simp [pure, Except.pure]

theorem add_work_experience_ne_schema (j : Json) :
    add_work_experience j ≠ Except.error GenErr.schemaError := by
  unfold add_work_experience
  refine bind_ne_schema _ _ (getItem_ne_schema _ _) fun x1 => ?_
  refine bind_ne_schema _ _ (asStr_ne_schema x1) fun company => ?_
  refine bind_ne_schema _ _ (getItem_ne_schema _ _) fun x2 => ?_
  refine bind_ne_schema _ _ (asStr_ne_schema x2) fun role => ?_
  refine bind_ne_schema _ _ (getItem_ne_schema _ _) fun x3 => ?_
  refine bind_ne_schema _ _ (asStr_ne_schema x3) fun location => ?_
  refine bind_ne_schema _ _ (getItem_ne_schema _ _) fun x4 => ?_
  refine bind_ne_schema _ _ (asStr_ne_schema x4) fun dates0 => ?_
  refine bind_ne_schema _ _ (getItem_ne_schema _ _) fun achJ => ?_
  refine bind_ne_schema _ _ (pyIter_ne_schema achJ) fun achs => ?_
  refine bind_ne_schema _ _ (achievementTexts_ne_schema achs) fun bullets => ?_
  simp [pure, Except.pure]

theorem workExperienceBlocks_ne_schema (xs : List Json) :
    workExperienceBlocks xs ≠ Except.error GenErr.schemaError := by
  induction xs with
  | nil => simp [workExperienceBlocks]
  | cons j rest ih =>
    simp only [workExperienceBlocks]
    exact bind_ne_schema _ _ (add_work_experience_ne_schema j) fun b =>
      bind_ne_schema _ _ ih fun tail => by simp [pure, Except.pure]

theorem add_education_ne_schema (e : Json) :
    add_education e ≠ Except.error GenErr.schemaError := by
  unfold add_education
  refine bind_ne_schema _ _ (getItem_ne_schema _ _) fun x1 => ?_
  refine bind_ne_schema _ _ (asStr_ne_schema x1) fun institution => ?_
  refine bind_ne_schema _ _ (getItem_ne_schema _ _) fun x2 => ?_
  refine bind_ne_schema _ _ (asStr_ne_schema x2) fun degree0 => ?_
  refine bind_ne_schema _ _ (getItem_ne_schema _ _) fun x3 => ?_
  refine bind_ne_schema _ _ (asStr_ne_schema x3) fun location => ?_
  refine bind_ne_schema _ _ (getItem_ne_schema _ _) fun x4 => ?_
  refine bind_ne_schema _ _ (asStr_ne_schema x4) fun grad0 => ?_
  simp [pure, Except.pure]

theorem generate_afterContactCheck_ne_schema (j : Json) :
    generate_afterContactCheck j ≠ Except.error GenErr.schemaError := by
  unfold generate_afterContactCheck
  refine bind_ne_schema _ _ (getItem_ne_schema _ _) fun contact => ?_
  refine bind_ne_schema _ _ (getItem_ne_schema _ _) fun x1 => ?_
  refine bind_ne_schema _ _ (asStr_ne_schema x1) fun name => ?_
  refine bind_ne_schema _ _ (getItem_ne_schema _ _) fun x2 => ?_
  refine bind_ne_schema _ _ (asStr_ne_schema x2) fun email0 => ?_
  refine bind_ne_schema _ _ (getItem_ne_schema _ _) fun x3 => ?_
  refine bind_ne_schema _ _ (asStr_ne_schema x3) fun phone0 => ?_
  refine bind_ne_schema _ _ (getItem_ne_schema _ _) fun x4 => ?_
  refine bind_ne_schema _ _ (asStr_ne_schema x4) fun linkedin0 => ?_
  refine bind_ne_schema _ _ (getItem_ne_schema _ _) fun x5 => ?_
  refine bind_ne_schema _ _ (asStr_ne_schema x5) fun title => ?_
  refine bind_ne_schema _ _ (getItem_ne_schema _ _) fun x6 => ?_
  refine bind_ne_schema _ _ (asStr_ne_schema x6) fun summary => ?_
  refine bind_ne_schema _ _ (getItem_ne_schema _ _) fun tech => ?_
  refine bind_ne_schema _ _ (skillsRowsBlock_ne_schema _ tech) fun rows => ?_
  refine bind_ne_schema _ _ (getItem_ne_schema _ _) fun weJ => ?_
  refine bind_ne_schema _ _ (pyIter_ne_schema weJ) fun jobsJ => ?_
  refine bind_ne_schema _ _ (workExperienceBlocks_ne_schema jobsJ) fun jobs => ?_
  refine bind_ne_schema _ _ (getItem_ne_schema _ _) fun eduJ => ?_
  refine bind_ne_schema _ _ (add_education_ne_schema eduJ) fun edu => ?_
  simp [pure, Except.pure]

/-! ## Claim theorems -/

theorem filterMap_lookup_map_fst (kvs : List (String × Json)) (l : List String) :
    (l.filterMap fun c => (kvs.lookup c).map fun v => (c, cellText v)).map Prod.fst
      = l.filter fun c => (kvs.lookup c).isSome := by
  induction l with
  | nil => rfl
  | cons c rest ih => cases h : kvs.lookup c <;> simp [h, ih]

/-- Claim C1: on a resume whose `technical_skills` is a mapping, the skills
table holds the fixed bold header row and then exactly one data row per
element of the category order that is a key of the mapping, in that order:
categories of `skill_order` absent from the mapping are skipped, mapping
keys absent from `skill_order` are dropped, and when `skill_order` is
absent the order is the key order of the mapping itself. -/
theorem claim_C1_skill_rows (r : Resume) (kvs : List (String × Json))
    (ht : r.technicalSkills = Json.obj kvs) (hok : skillsOkB r = true) :
    (generateCore r.toJson).map Doc.skillsRows =
      Except.ok ((skillOrderOf r).filterMap fun c =>
        (kvs.lookup c).map fun v => (c, cellText v)) ∧
    (generateCore r.toJson).map (fun d => d.skillsRows.map Prod.fst) =
      Except.ok ((skillOrderOf r).filter fun c => (kvs.lookup c).isSome) ∧
    (generateCore r.toJson).map Doc.skillsHeader =
      Except.ok ("Category", "Skills/Tools") ∧
    (∀ o, r.skillOrder = some o → skillOrderOf r = o) ∧
    (r.skillOrder = none → skillOrderOf r = kvs.map Prod.fst) := by
  rw [generateCore_toJson r hok]
  refine ⟨?_, ?_, rfl, ?_, ?_⟩
  · simp [Except.map, docOf, skillsRowsOf, ht]
  · simp [Except.map, docOf, skillsRowsOf, ht, filterMap_lookup_map_fst]
  · intro o ho; simp [skillOrderOf, ho]
  · intro ho; simp [skillOrderOf, ho, ht]

/-- Claim C1 witness: with keys A, C and `skill_order` ["B", "A"], the only
data row is for A; B is skipped and C is dropped. -/
theorem claim_C1_skill_rows_witness :
    cex1.technicalSkills = Json.obj [("A", Json.str "x"), ("C", Json.str "y")] ∧
    skillsOkB cex1 = true ∧
    (generateCore cex1.toJson).map Doc.skillsRows = Except.ok [("A", "x")] := by
  refine ⟨rfl, rfl, ?_⟩
  rw [(claim_C1_skill_rows cex1 [("A", Json.str "x"), ("C", Json.str "y")] rfl rfl).1]
  rfl

/-- Claim C2, corrected: the displayed text of the LinkedIn hyperlink is the
stored identifier with surrounding whitespace stripped (the source calls
`.strip()` before display, so it is not the identifier verbatim), never
prefixed; the link target is that stripped identifier, prefixed with
`https://` exactly when it does not start with the literal text `http`. -/
theorem claim_C2_linkedin_hyperlink (r : Resume) (hok : skillsOkB r = true) :
    (generateCore r.toJson).map (fun d => d.contactLine.getLast?) =
      Except.ok (some (Inline.hyperlink (pyStrip r.contact.linkedin)
        (if pyStartsWith (pyStrip r.contact.linkedin) "http" then
           pyStrip r.contact.linkedin
         else "https://" ++ pyStrip r.contact.linkedin) true)) := by
  rw [generateCore_toJson r hok]
  rfl

/-- Claim C2 counterexample: a LinkedIn identifier stored with a leading
space is displayed stripped, so the displayed text is not the stored
identifier verbatim. -/
theorem claim_C2_counterexample :
    (generateCore cex2.toJson).map (fun d => d.contactLine.getLast?) =
      Except.ok (some (Inline.hyperlink "linkedin.com/in/asisub"
        "https://linkedin.com/in/asisub" true)) ∧
    cex2.contact.linkedin ≠ "linkedin.com/in/asisub" := by
  exact ⟨rfl, by decide⟩

/-- Claim C2 witness: the spec example identifier renders with the displayed
text unchanged and the target prefixed with `https://`. -/
theorem claim_C2_linkedin_hyperlink_witness :
    skillsOkB baseResume = true ∧
    (generateCore baseResume.toJson).map (fun d => d.contactLine.getLast?) =
      Except.ok (some (Inline.hyperlink "linkedin.com/in/asisub"
        "https://linkedin.com/in/asisub" true)) := by
  refine ⟨rfl, ?_⟩
  rw [claim_C2_linkedin_hyperlink baseResume rfl]
  rfl

/-- Claim C3, corrected: for a decoded mapping input the schema failure is
raised exactly when the `contact` key is absent or its value is not a
mapping; a failed decode of a string input is the distinct decode failure;
and when `contact` is a mapping with a name but no email the failure is the
distinct key failure naming the bare key `email` (not the qualified path
`contact.email` the spec promises). -/
theorem claim_C3_error_taxonomy :
    (∀ kvs : List (String × Json),
      generateCore (Json.obj kvs) = Except.error GenErr.schemaError ↔
        (kvs.lookup "contact" = none ∨
          ∃ c, kvs.lookup "contact" = some c ∧ c.isObj = false)) ∧
    (∀ decode : String → Option Json, ∀ s : String, decode s = none →
      generate_document decode (Json.str s) = Except.error GenErr.decodeError) ∧
    (∀ kvs cs : List (String × Json), ∀ n : String,
      kvs.lookup "contact" = some (Json.obj cs) →
      cs.lookup "name" = some (Json.str n) →
      cs.lookup "email" = none →
      generateCore (Json.obj kvs) = Except.error (GenErr.keyError "email")) ∧
    (GenErr.schemaError ≠ GenErr.decodeError ∧
      ∀ k : String, GenErr.keyError k ≠ GenErr.schemaError ∧
        GenErr.keyError k ≠ GenErr.decodeError) := by
  refine ⟨?_, ?_, ?_, by decide, fun k => ⟨by simp, by simp⟩⟩
  · intro kvs
    cases hc : kvs.lookup "contact" with
    | none =>
      simp [generateCore, pyContains, hc, bind, Except.bind, pure, Except.pure]
    | some c =>
      cases hobj : c.isObj with
      | false =>
        simp [generateCore, pyContains, hc, Json.getItem, hobj, bind, Except.bind,
          pure, Except.pure]
      | true =>
        simp [generateCore, pyContains, hc, Json.getItem, hobj, bind, Except.bind,
          pure, Except.pure, generate_afterContactCheck_ne_schema (Json.obj kvs)]
  · intro decode s h
    simp [generate_document, h]
  · intro kvs cs n hc hn he
    simp [generateCore, pyContains, hc, Json.getItem, Json.isObj,
      generate_afterContactCheck, hn, he, Json.asStr, bind, Except.bind,
      pure, Except.pure]

/-- Claim C3 counterexample: with `contact` a mapping holding only a name,
the failure is the Python `KeyError` carrying the bare key `email`, not the
field path `contact.email` the claim requires. -/
theorem claim_C3_counterexample :
    generateCore (Json.obj [("contact", Json.obj [("name", Json.str "Alice")])]) =
      Except.error (GenErr.keyError "email") ∧
    GenErr.keyError "email" ≠ GenErr.keyError "contact.email" := by
  exact ⟨rfl, by decide⟩

/-- Claim C3 witness: an empty mapping fails the schema check, and a string
that fails to decode is the distinct decode failure. -/
theorem claim_C3_error_taxonomy_witness :
    generateCore (Json.obj []) = Except.error GenErr.schemaError ∧
    generate_document (fun _ => none) (Json.str "oops") =
      Except.error GenErr.decodeError := by
  constructor
  · exact (claim_C3_error_taxonomy.1 []).mpr (Or.inl rfl)
  · exact claim_C3_error_taxonomy.2.1 (fun _ => none) "oops" rfl

theorem lookup_mem {β : Type} (kvs : List (String × β)) (c : String) (v : β)
    (h : kvs.lookup c = some v) : (c, v) ∈ kvs := by
  induction kvs with
  | nil => simp [List.lookup] at h
  | cons kv rest ih =>
    obtain ⟨k, w⟩ := kv
    by_cases hck : c = k
    · subst hck
      simp [List.lookup] at h
      simp [h]
    · have hb : (c == k) = false := beq_eq_false_iff_ne.mpr hck
      simp only [List.lookup, hb] at h
      exact List.mem_cons_of_mem _ (ih h)

theorem allSkillValsOk_skillsOk (r : Resume) (h : allSkillValsOkB r = true) :
    skillsOkB r = true := by
  cases ht : r.technicalSkills with
  | obj kvs =>
    rw [allSkillValsOkB, ht] at h
    rw [skillsOkB, ht]
    apply List.all_eq_true.mpr
    intro c hc
    cases hcv : kvs.lookup c with
    | none => simp
    | some v =>
      have hm := lookup_mem kvs c v hcv
      have := List.all_eq_true.mp h _ hm
      simpa using this
  | str s => simp [skillsOkB, ht]
  | num n => simp [skillsOkB, ht]
  | bool b => simp [skillsOkB, ht]
  | null => simp [skillsOkB, ht]
  | arr xs => simp [skillsOkB, ht]

theorem filterMap_lookup_shadow (k : String) (v : Json) (kvs : List (String × Json))
    (l : List String) (hl : ∀ c ∈ l, ¬c = k) :
    (l.filterMap fun c => (((k, v) :: kvs).lookup c).map fun w => (c, cellText w))
      = l.filterMap fun c => (kvs.lookup c).map fun w => (c, cellText w) := by
  induction l with
  | nil => rfl
  | cons c rest ih =>
    have hck : (c == k) = false :=
      beq_eq_false_iff_ne.mpr (hl c (List.mem_cons_self c rest))
    have hhead : List.lookup c ((k, v) :: kvs) = List.lookup c kvs := by
      simp [List.lookup, hck]
    have htl := ih fun c hc => hl c (List.mem_cons_of_mem _ hc)
    simp only [List.filterMap_cons, hhead, htl]

theorem rows_keys_eq_items (kvs : List (String × Json))
    (hnd : (kvs.map Prod.fst).Nodup) :
    ((kvs.map Prod.fst).filterMap fun c => (kvs.lookup c).map fun v => (c, cellText v))
      = kvs.map fun kv => (kv.1, cellText kv.2) := by
  induction kvs with
  | nil => rfl
  | cons kv rest ih =>
    obtain ⟨k, v⟩ := kv
    simp only [List.map_cons] at hnd
    obtain ⟨hk, hrest⟩ := List.nodup_cons.mp hnd
    have h1 : List.lookup k ((k, v) :: rest) = some v := by simp [List.lookup]
    have h2 := filterMap_lookup_shadow k v rest (rest.map Prod.fst)
      (fun c hc hck => hk (hck ▸ hc))
    simp [List.filterMap_cons, h1, h2, ih hrest]

/-- Claim C4, corrected: the module-level renderer of `doc_generator.py`
ignores `skill_order`, so the two renderers produce the same document
content only on inputs without a `skill_order` key (given the mapping
keys distinct, as a Python dict guarantees); with `skill_order` present in
a different order the outputs differ. -/
theorem claim_C4_renderers_agree (r : Resume) (hso : r.skillOrder = none)
    (hnd : ∀ kvs, r.technicalSkills = Json.obj kvs → (kvs.map Prod.fst).Nodup)
    (hok : allSkillValsOkB r = true) :
    generateCore r.toJson = createCore r.toJson := by
  rw [generateCore_toJson r (allSkillValsOk_skillsOk r hok), createCore_toJson r hok]
  have hrows : skillsRowsOf r = skillsRowsOfM r := by
    cases ht : r.technicalSkills with
    | obj kvs =>
      simp [skillsRowsOf, skillsRowsOfM, ht, skillOrderOf, hso,
        rows_keys_eq_items kvs (hnd kvs ht)]
    | str s => simp [skillsRowsOf, skillsRowsOfM, ht]
    | num n => simp [skillsRowsOf, skillsRowsOfM, ht]
    | bool b => simp [skillsRowsOf, skillsRowsOfM, ht]
    | null => simp [skillsRowsOf, skillsRowsOfM, ht]
    | arr xs => simp [skillsRowsOf, skillsRowsOfM, ht]
  simp [docOf, docOfM, hrows]

/-- Claim C4 counterexample: with keys A, B and `skill_order` ["B", "A"],
the class renderer emits rows B, A while the module-level renderer emits
rows A, B, so the two documents differ. -/
theorem claim_C4_counterexample :
    (generateCore cex4.toJson).map Doc.skillsRows = Except.ok [("B", "y"), ("A", "x")] ∧
    (createCore cex4.toJson).map Doc.skillsRows = Except.ok [("A", "x"), ("B", "y")] ∧
    (generateCore cex4.toJson).map Doc.skillsRows ≠
      (createCore cex4.toJson).map Doc.skillsRows := by
  refine ⟨rfl, rfl, ?_⟩
  intro h
  have h1 : (generateCore cex4.toJson).map Doc.skillsRows =
      Except.ok [("B", "y"), ("A", "x")] := rfl
  have h2 : (createCore cex4.toJson).map Doc.skillsRows =
      Except.ok [("A", "x"), ("B", "y")] := rfl
  rw [h1, h2] at h
  simp at h

/-- Claim C4 witness: on the baseline resume, which has no `skill_order`,
both renderers produce the same document. -/
theorem claim_C4_renderers_agree_witness :
    baseResume.skillOrder = none ∧ allSkillValsOkB baseResume = true ∧
    generateCore baseResume.toJson = createCore baseResume.toJson := by
  refine ⟨rfl, rfl, claim_C4_renderers_agree baseResume rfl ?_ rfl⟩
  intro kvs h
  injection h with h'
  subst h'
  decide

/-- Claim C5: the rendered dates text of every job is the input dates with the
mis-decoded dash artifacts replaced by a plain hyphen and double spaces
collapsed; in particular an en-dash dates field renders with a plain
hyphen. -/
theorem claim_C5_dates_sanitized (r : Resume) (hok : skillsOkB r = true) :
    (generateCore r.toJson).map (fun d => d.jobs.map JobBlock.dates) =
      Except.ok (r.workExperience.map fun j => sanitizeDates j.dates) ∧
    sanitizeDates "Jan 2020 – Present" = "Jan 2020 - Present" := by
  refine ⟨?_, rfl⟩
  rw [generateCore_toJson r hok]
  simp [Except.map, docOf, List.map_map, Function.comp, jobBlockOf]

/-- Claim C5 witness: the dates field "Jan 2020 – Present" renders as
"Jan 2020 - Present". -/
theorem claim_C5_dates_sanitized_witness :
    skillsOkB res5 = true ∧
    (generateCore res5.toJson).map (fun d => d.jobs.map JobBlock.dates) =
      Except.ok ["Jan 2020 - Present"] := by
  refine ⟨rfl, ?_⟩
  rw [(claim_C5_dates_sanitized res5 rfl).1]
  rfl

/-- Claim C6, corrected: the degree text is rendered with only the
apostrophe repair applied (each mis-decoded byte `â` replaced by an
apostrophe); the dash-to-hyphen and double-space rules of the sanitizer are
not applied to degree text. -/
theorem claim_C6_degree_sanitized (r : Resume) (hok : skillsOkB r = true) :
    (generateCore r.toJson).map (fun d => d.education.degree) =
      Except.ok (sanitizeDegree r.education.degree) := by
  rw [generateCore_toJson r hok]
  rfl

/-- Claim C6 counterexample: a degree with an en-dash and a double space is
rendered unchanged, while the full sanitizer rule list would have produced
"BSc - CS". -/
theorem claim_C6_counterexample :
    (generateCore cex6.toJson).map (fun d => d.education.degree) =
      Except.ok "BSc –  CS" ∧
    ("BSc –  CS" : String) ≠ "BSc - CS" ∧
    sanitizeDates "BSc –  CS" = "BSc - CS" := by
  exact ⟨rfl, by decide, rfl⟩

/-- Claim C6 witness: the degree "Bachelorâs" renders with the mis-decoded
byte replaced by an apostrophe. -/
theorem claim_C6_degree_sanitized_witness :
    skillsOkB res6 = true ∧
    (generateCore res6.toJson).map (fun d => d.education.degree) =
      Except.ok "Bachelor\x27s" := by
  refine ⟨rfl, ?_⟩
  rw [claim_C6_degree_sanitized res6 rfl]
  rfl

/-- Claim C7, corrected: each achievement renders as one bulleted paragraph
whose text is the achievement with every occurrence of the bullet glyph
removed (not only a leading one) and surrounding whitespace trimmed; the
spec example with a leading glyph still renders as stated. -/
theorem claim_C7_achievements (r : Resume) (hok : skillsOkB r = true) :
    (generateCore r.toJson).map (fun d => d.jobs.map JobBlock.bullets) =
      Except.ok (r.workExperience.map fun j => j.achievements.map sanitizeAchievement) ∧
    sanitizeAchievement "● Led team of 5" = "Led team of 5" := by
  refine ⟨?_, rfl⟩
  rw [generateCore_toJson r hok]
  simp [Except.map, docOf, List.map_map, Function.comp, jobBlockOf]

/-- Claim C7 counterexample: an achievement with an interior bullet glyph
has that glyph removed too, so the rendered text differs from merely
stripping a leading glyph. -/
theorem claim_C7_counterexample :
    (generateCore cex7.toJson).map (fun d => d.jobs.map JobBlock.bullets) =
      Except.ok [["Led  team"]] ∧
    (["Led  team"] : List String) ≠ ["Led ● team"] := by
  exact ⟨rfl, by decide⟩

/-- Claim C7 witness: "● Led team of 5" renders as "Led team of 5". -/
theorem claim_C7_achievements_witness :
    skillsOkB res7 = true ∧
    (generateCore res7.toJson).map (fun d => d.jobs.map JobBlock.bullets) =
      Except.ok [["Led team of 5"]] := by
  refine ⟨rfl, ?_⟩
  rw [(claim_C7_achievements res7 rfl).1]
  rfl

/-- Claim C8: decoding a JSON string and rendering the result produces the
same document as rendering the already-decoded value directly, for any
decoded value that is itself not a string (a valid resume is a record, and
a string value would be decoded a second time by the `isinstance(str)`
dispatch). -/
theorem claim_C8_decode_roundtrip (decode : String → Option Json) (s : String)
    (v : Json) (hdec : decode s = some v) (hv : v.isStr = false) :
    generate_document decode (Json.str s) = generate_document decode v := by
  cases v with
  | str t => simp [Json.isStr] at hv
  | num n => simp [generate_document, hdec]
  | bool b => simp [generate_document, hdec]
  | null => simp [generate_document, hdec]
  | arr xs => simp [generate_document, hdec]
  | obj kvs => simp [generate_document, hdec]

/-- Claim C8 witness: a decoder sending "x" to the empty mapping makes
rendering the string and rendering the mapping agree. -/
theorem claim_C8_decode_roundtrip_witness :
    (fun _ : String => some (Json.obj [])) "x" = some (Json.obj []) ∧
    (Json.obj []).isStr = false ∧
    generate_document (fun _ => some (Json.obj [])) (Json.str "x") =
      generate_document (fun _ => some (Json.obj [])) (Json.obj []) := by
  exact ⟨rfl, rfl, claim_C8_decode_roundtrip (fun _ => some (Json.obj [])) "x"
    (Json.obj []) rfl rfl⟩

/-- Claim C9: rendering is deterministic: the renderer is a pure function of
its input, so two calls on identical input produce identical documents. -/
theorem claim_C9_deterministic (decode : String → Option Json) (j : Json) :
    generate_document decode j = generate_document decode j := rfl

theorem filterMap_lookup_nil (l : List String) :
    (l.filterMap fun c =>
      ((List.lookup c ([] : List (String × Json))).map fun v => (c, cellText v))) = [] := by
  induction l with
  | nil => rfl
  | cons c rest ih => simp [List.lookup, ih]

theorem skillsOkB_non_obj (r : Resume) (h : r.technicalSkills.isObj = false) :
    skillsOkB r = true := by
  cases ht : r.technicalSkills with
  | obj kvs => rw [ht] at h; simp [Json.isObj] at h
  | str s => simp [skillsOkB, ht]
  | num n => simp [skillsOkB, ht]
  | bool b => simp [skillsOkB, ht]
  | null => simp [skillsOkB, ht]
  | arr xs => simp [skillsOkB, ht]

/-- Claim C10: when `technical_skills` is present but not a mapping, the
renderer does not fail: the skills table holds only the bold
"Category"/"Skills/Tools" header row with no data rows, and the rest of the
document equals the document rendered with an empty mapping there. -/
theorem claim_C10_non_mapping_skills (r : Resume) (h : r.technicalSkills.isObj = false) :
    generateCore r.toJson = Except.ok (docOf r) ∧
    (docOf r).skillsRows = [] ∧
    (docOf r).skillsHeader = ("Category", "Skills/Tools") ∧
    generateCore r.toJson = generateCore ((r.setTech (Json.obj [])).toJson) := by
  have hok := skillsOkB_non_obj r h
  have hrows : skillsRowsOf r = [] := by
    cases ht : r.technicalSkills with
    | obj kvs => rw [ht] at h; simp [Json.isObj] at h
    | str s => simp [skillsRowsOf, ht]
    | num n => simp [skillsRowsOf, ht]
    | bool b => simp [skillsRowsOf, ht]
    | null => simp [skillsRowsOf, ht]
    | arr xs => simp [skillsRowsOf, ht]
  have hok2 : skillsOkB (r.setTech (Json.obj [])) = true := by
    rw [skillsOkB]
    apply List.all_eq_true.mpr
    intro c hc
    simp [List.lookup]
  refine ⟨generateCore_toJson r hok, by simp [docOf, hrows], by simp [docOf], ?_⟩
  rw [generateCore_toJson r hok, generateCore_toJson (r.setTech (Json.obj [])) hok2]
  have hrows2 : skillsRowsOf (r.setTech (Json.obj [])) = [] := by
    rw [skillsRowsOf]
    exact filterMap_lookup_nil _
  simp only [Resume.setTech] at hrows2
  simp [docOf, Resume.setTech, hrows, hrows2, contactLineOf, eduBlockOf, jobBlockOf]

/-- Claim C10 witness: with `technical_skills` the plain string
"Python, SQL", rendering succeeds with an empty skills-row list. -/
theorem claim_C10_non_mapping_skills_witness :
    res10.technicalSkills.isObj = false ∧
    (generateCore res10.toJson).map Doc.skillsRows = Except.ok [] ∧
    (generateCore res10.toJson).map Doc.skillsHeader =
      Except.ok ("Category", "Skills/Tools") := by
    refine ⟨rfl, ?_, ?_⟩
    · rw [(claim_C10_non_mapping_skills res10 rfl).1]
      simp [Except.map, (claim_C10_non_mapping_skills res10 rfl).2.1]
    · rw [(claim_C10_non_mapping_skills res10 rfl).1]
      rfl
